import Mathlib

/-!
Shallow embedding of the XPlaneConnectX / XPlaneConnect2 UDP protocol client
(`src/Python3/XPlaneConnectX.py`, `src/Python3/XPlaneConnect2.py`).

Bytes are modelled as natural numbers below 256 and datagrams as lists of
bytes.  IEEE-754 single- and double-precision fields are carried by their bit
patterns (natural numbers below `2^32` / `2^64`); `float32ToRat` gives the
exact rational value of a finite single-precision pattern, matching what
`struct.unpack` of a little-endian `f` field returns.  Signed 32-bit integer
fields (`struct` format `i`) are modelled as `Int` with explicit two's
complement conversion.
-/

namespace XPC

/-- Little-endian serialisation of `n` into `k` bytes, as `struct.pack` lays
out an integer field. -/
def leBytes : Nat → Nat → List Nat
  | 0, _ => []
  | k + 1, n => n % 256 :: leBytes k (n / 256)

/-- Little-endian value of a byte list, as `struct.unpack` reads an integer
field. -/
def leVal : List Nat → Nat
  | [] => 0
  | b :: bs => b + 256 * leVal bs

/-- Encoding of a signed 32-bit integer (`struct` format `<i`): two's
complement, little endian. -/
def encInt32 (i : Int) : List Nat := leBytes 4 (i % (2 ^ 32)).toNat

/-- Decoding of a signed 32-bit integer (`struct` format `<i`). -/
def decInt32 (bs : List Nat) : Int :=
  let n := leVal bs
  if n < 2 ^ 31 then (n : Int) else (n : Int) - 2 ^ 32

/-- Null-padding of a name field to width `w`, as `struct.pack` of a `ws`
field: truncate to `w` bytes, then pad with zero bytes. -/
def padTo (w : Nat) (bs : List Nat) : List Nat :=
  bs.take w ++ List.replicate (w - bs.length) 0

/-- Reading back a null-terminated text field: the bytes before the first
zero byte. -/
def unpad (bs : List Nat) : List Nat := bs.takeWhile (fun b => b != 0)

/-- Magic tag `b'RREF'`. -/
def rrefTag : List Nat := [82, 82, 69, 70]

/-- Magic tag `b'DREF'`. -/
def drefTag : List Nat := [68, 82, 69, 70]

/-- Magic tag `b'CMND'`. -/
def cmndTag : List Nat := [67, 77, 78, 68]

/-- Magic tag `b'VEHS'`. -/
def vehsTag : List Nat := [86, 69, 72, 83]

/-- Magic tag `b'RPOS'`. -/
def rposTag : List Nat := [82, 80, 79, 83]

/-- Subscribe/unsubscribe request (`struct.pack("<4sxii400s", b'RREF', freq,
idx, dref)`), as sent by `_create_observation_requests` and `getDREF`.  The
`dref` field holds the UTF-8 bytes of the DataRef name. -/
structure RREFRequest where
  freq : Int
  slot : Int
  dref : List Nat
deriving DecidableEq

/-- Well-formed subscribe request: 32-bit fields in range, name null-free
bytes within the 400-byte field. -/
def RREFRequest.wf (m : RREFRequest) : Prop :=
  -(2 ^ 31) ≤ m.freq ∧ m.freq < 2 ^ 31 ∧ -(2 ^ 31) ≤ m.slot ∧ m.slot < 2 ^ 31 ∧
  m.dref.length ≤ 400 ∧ ∀ b ∈ m.dref, b ≠ 0 ∧ b < 256

instance (m : RREFRequest) : Decidable m.wf := by
  unfold RREFRequest.wf; infer_instance

/-- Wire encoding of a subscribe/unsubscribe request, from
`struct.pack("<4sxii400s", ...)`. -/
def encodeRREFRequest (m : RREFRequest) : List Nat :=
  rrefTag ++ ([0] ++ (encInt32 m.freq ++ (encInt32 m.slot ++ padTo 400 m.dref)))

/-- Modelled from the spec: the repository only encodes this request (the
simulation host decodes it); the decoder reads back the `tag(4) pad(1)
freq:int32 slot:int32 name:char[400]` layout of the wire-format table. -/
def decodeRREFRequest (bs : List Nat) : Option RREFRequest :=
  if bs.length = 413 ∧ bs.take 4 = rrefTag then
    some { freq := decInt32 ((bs.drop 5).take 4),
           slot := decInt32 ((bs.drop 9).take 4),
           dref := unpad (bs.drop 13) }
  else none

/-- One 8-byte subscription-update record (`struct.unpack("<if", p_data)` in
`_observe`).  The `value` field is the IEEE-754 single-precision bit
pattern. -/
structure UpdateRecord where
  slot : Int
  value : Nat
deriving DecidableEq

/-- Well-formed update record: 32-bit slot id in range, 32-bit value
pattern. -/
def UpdateRecord.wf (m : UpdateRecord) : Prop :=
  -(2 ^ 31) ≤ m.slot ∧ m.slot < 2 ^ 31 ∧ m.value < 2 ^ 32

instance (m : UpdateRecord) : Decidable m.wf := by
  unfold UpdateRecord.wf; infer_instance

/-- Modelled from the spec: the repository only decodes update records (the
host encodes them); the encoder packs the `{slotId:int32, value:float32}`
layout read by `struct.unpack("<if", ...)`. -/
def encodeUpdateRecord (m : UpdateRecord) : List Nat :=
  encInt32 m.slot ++ leBytes 4 m.value

/-- Decoding of one update record, from `struct.unpack("<if", p_data)`:
`unpack` demands exactly 8 bytes. -/
def decodeUpdateRecord (bs : List Nat) : Option UpdateRecord :=
  if bs.length = 8 then
    some { slot := decInt32 (bs.take 4), value := leVal (bs.drop 4) }
  else none

/-- Write request (`struct.pack('<4sxf500s', b'DREF', value, dref)`), as sent
by `sendDREF` and `sendCTRL`.  The `value` field is the single-precision bit
pattern. -/
structure DREFWrite where
  value : Nat
  dref : List Nat
deriving DecidableEq

/-- Well-formed write request: 32-bit value pattern, name null-free bytes
within the 500-byte field. -/
def DREFWrite.wf (m : DREFWrite) : Prop :=
  m.value < 2 ^ 32 ∧ m.dref.length ≤ 500 ∧ ∀ b ∈ m.dref, b ≠ 0 ∧ b < 256

instance (m : DREFWrite) : Decidable m.wf := by
  unfold DREFWrite.wf; infer_instance

/-- Wire encoding of a write request, from `struct.pack('<4sxf500s', ...)`. -/
def encodeDREFWrite (m : DREFWrite) : List Nat :=
  drefTag ++ ([0] ++ (leBytes 4 m.value ++ padTo 500 m.dref))

/-- Modelled from the spec: the repository only encodes write requests; the
decoder reads back the `tag(4) pad(1) value:float32 name:char[500]` layout of
the wire-format table. -/
def decodeDREFWrite (bs : List Nat) : Option DREFWrite :=
  if bs.length = 509 ∧ bs.take 4 = drefTag then
    some { value := leVal ((bs.drop 5).take 4), dref := unpad (bs.drop 9) }
  else none

/-- Command request (`struct.pack('<4sx500s', b'CMND', command)`), as sent by
`sendCMND`. -/
structure CMNDRequest where
  command : List Nat
deriving DecidableEq

/-- Well-formed command request: null-free command bytes within the 500-byte
field. -/
def CMNDRequest.wf (m : CMNDRequest) : Prop :=
  m.command.length ≤ 500 ∧ ∀ b ∈ m.command, b ≠ 0 ∧ b < 256

instance (m : CMNDRequest) : Decidable m.wf := by
  unfold CMNDRequest.wf; infer_instance

/-- Wire encoding of a command request, from `struct.pack('<4sx500s', ...)`. -/
def encodeCMNDRequest (m : CMNDRequest) : List Nat :=
  cmndTag ++ ([0] ++ padTo 500 m.command)

/-- Modelled from the spec: the repository only encodes command requests; the
decoder reads back the `tag(4) pad(1) name:char[500]` layout of the
wire-format table. -/
def decodeCMNDRequest (bs : List Nat) : Option CMNDRequest :=
  if bs.length = 505 ∧ bs.take 4 = cmndTag then
    some { command := unpad (bs.drop 5) }
  else none

/-- Position-set request (`struct.pack('<4sxidddfff', b'VEHS', ac, lat, lon,
elev, psi_true, theta, phi)`), as sent by `sendPOSI`.  Latitude, longitude
and elevation carry double-precision bit patterns; the three attitude angles
carry single-precision bit patterns. -/
structure VEHSRequest where
  ac : Int
  lat : Nat
  lon : Nat
  elev : Nat
  psi_true : Nat
  theta : Nat
  phi : Nat
deriving DecidableEq

/-- Well-formed position-set request: 32-bit aircraft index in range, 64-bit
position patterns, 32-bit attitude patterns. -/
def VEHSRequest.wf (m : VEHSRequest) : Prop :=
  -(2 ^ 31) ≤ m.ac ∧ m.ac < 2 ^ 31 ∧ m.lat < 2 ^ 64 ∧ m.lon < 2 ^ 64 ∧
  m.elev < 2 ^ 64 ∧ m.psi_true < 2 ^ 32 ∧ m.theta < 2 ^ 32 ∧ m.phi < 2 ^ 32

instance (m : VEHSRequest) : Decidable m.wf := by
  unfold VEHSRequest.wf; infer_instance

/-- Wire encoding of a position-set request, from
`struct.pack('<4sxidddfff', ...)`. -/
def encodeVEHSRequest (m : VEHSRequest) : List Nat :=
  vehsTag ++ ([0] ++ (encInt32 m.ac ++ (leBytes 8 m.lat ++ (leBytes 8 m.lon ++
    (leBytes 8 m.elev ++ (leBytes 4 m.psi_true ++ (leBytes 4 m.theta ++
      leBytes 4 m.phi)))))))

/-- Modelled from the spec: the repository only encodes position-set
requests; the decoder reads back the `tag(4) pad(1) acIndex:int32
lat:float64 lon:float64 elev:float64 heading:float32 pitch:float32
roll:float32` layout of the wire-format table. -/
def decodeVEHSRequest (bs : List Nat) : Option VEHSRequest :=
  if bs.length = 45 ∧ bs.take 4 = vehsTag then
    some { ac := decInt32 ((bs.drop 5).take 4),
           lat := leVal ((bs.drop 9).take 8),
           lon := leVal ((bs.drop 17).take 8),
           elev := leVal ((bs.drop 25).take 8),
           psi_true := leVal ((bs.drop 33).take 4),
           theta := leVal ((bs.drop 37).take 4),
           phi := leVal ((bs.drop 41).take 4) }
  else none

/-- Position-query reply, decoded by `getPOSI` via
`struct.unpack("<xdddffffffffff", data[4:])`: longitude, latitude, elevation
as double-precision bit patterns, then height above terrain, pitch, true
heading, roll, three velocity components and three angular rates as
single-precision bit patterns. -/
structure RPOSReply where
  lon : Nat
  lat : Nat
  ele : Nat
  y_agl : Nat
  theta : Nat
  psi_true : Nat
  phi : Nat
  vx : Nat
  vy : Nat
  vz : Nat
  p : Nat
  q : Nat
  r : Nat
deriving DecidableEq

/-- Well-formed position reply: 64-bit position patterns, 32-bit patterns
elsewhere. -/
def RPOSReply.wf (m : RPOSReply) : Prop :=
  m.lon < 2 ^ 64 ∧ m.lat < 2 ^ 64 ∧ m.ele < 2 ^ 64 ∧ m.y_agl < 2 ^ 32 ∧
  m.theta < 2 ^ 32 ∧ m.psi_true < 2 ^ 32 ∧ m.phi < 2 ^ 32 ∧ m.vx < 2 ^ 32 ∧
  m.vy < 2 ^ 32 ∧ m.vz < 2 ^ 32 ∧ m.p < 2 ^ 32 ∧ m.q < 2 ^ 32 ∧ m.r < 2 ^ 32

instance (m : RPOSReply) : Decidable m.wf := by
  unfold RPOSReply.wf; infer_instance

/-- Modelled from the spec: the repository only decodes position replies (the
host encodes them); the encoder packs the layout read by
`struct.unpack("<xdddffffffffff", data[4:])` behind the `RPOS` tag. -/
def encodeRPOSReply (m : RPOSReply) : List Nat :=
  rposTag ++ ([0] ++ (leBytes 8 m.lon ++ (leBytes 8 m.lat ++ (leBytes 8 m.ele ++
    (leBytes 4 m.y_agl ++ (leBytes 4 m.theta ++ (leBytes 4 m.psi_true ++
      (leBytes 4 m.phi ++ (leBytes 4 m.vx ++ (leBytes 4 m.vy ++ (leBytes 4 m.vz ++
        (leBytes 4 m.p ++ (leBytes 4 m.q ++ leBytes 4 m.r)))))))))))))

/-- Decoding of a position reply, from `getPOSI`: the tag is compared against
`b'RPOS'` and `struct.unpack("<xdddffffffffff", data[4:])` demands exactly 65
remaining bytes. -/
def decodeRPOSReply (bs : List Nat) : Option RPOSReply :=
  if bs.length = 69 ∧ bs.take 4 = rposTag then
    some { lon := leVal ((bs.drop 5).take 8),
           lat := leVal ((bs.drop 13).take 8),
           ele := leVal ((bs.drop 21).take 8),
           y_agl := leVal ((bs.drop 29).take 4),
           theta := leVal ((bs.drop 33).take 4),
           psi_true := leVal ((bs.drop 37).take 4),
           phi := leVal ((bs.drop 41).take 4),
           vx := leVal ((bs.drop 45).take 4),
           vy := leVal ((bs.drop 49).take 4),
           vz := leVal ((bs.drop 53).take 4),
           p := leVal ((bs.drop 57).take 4),
           q := leVal ((bs.drop 61).take 4),
           r := leVal ((bs.drop 65).take 4) }
  else none

/-- Exact rational value of a finite IEEE-754 single-precision bit pattern,
as `struct.unpack` of an `f` field yields it (`none` for infinities and
NaNs). -/
def float32ToRat (b : Nat) : Option ℚ :=
  let s : Nat := b / 2 ^ 31 % 2
  let e : Nat := b / 2 ^ 23 % 2 ^ 8
  let mant : Nat := b % 2 ^ 23
  if e = 255 then none
  else if e = 0 then
    some ((if s = 1 then -1 else 1) * (mant : ℚ) / 2 ^ 149)
  else
    some ((if s = 1 then -1 else 1) * ((2 ^ 23 + mant : ℕ) : ℚ) * 2 ^ e / 2 ^ 150)

/-- Python dictionary lookup `d[k]` / `k in d.keys()`, on an association
list. -/
def dictGet {K V : Type} [DecidableEq K] : List (K × V) → K → Option V
  | [], _ => none
  | (k', v) :: rest, k => if k' = k then some v else dictGet rest k

/-- Python dictionary assignment `d[k] = v`, on an association list: replace
the binding when the key is present, append it otherwise. -/
def dictSet {K V : Type} [DecidableEq K] : List (K × V) → K → V → List (K × V)
  | [], k, v => [(k, v)]
  | (k', v') :: rest, k, v =>
      if k' = k then (k, v) :: rest else (k', v') :: dictSet rest k v

/-- Latest-value cache entry: `{'value': ..., 'timestamp': ...}`, both `None`
until the first update is received.  The value is the received
single-precision bit pattern; timestamps are abstract instants (`Nat`). -/
structure CacheEntry where
  value : Option Nat
  timestamp : Option Nat
deriving DecidableEq

/-- Engine state shared by the receive loop: the subscription registry
`self.reverse_index` (slot id to DataRef name) and the value cache
`self.current_dref_values` (named `current_data` in `XPlaneConnect2`). -/
structure Engine where
  reverse_index : List (Int × String)
  current_dref_values : List (String × CacheEntry)
deriving DecidableEq

/-- State built by `XPlaneConnectX.subscribeDREFs` (and, identically, by
`XPlaneConnect2.__init__`): slot `i` maps to the `i`-th subscribed name, and
the cache holds one unset entry per subscribed name. -/
def subscribeDREFs (subscribed_drefs : List (String × Int)) : Engine :=
  { reverse_index :=
      (List.range subscribed_drefs.length).zip subscribed_drefs |>.map
        (fun p => ((p.1 : Int), p.2.1)),
    current_dref_values :=
      subscribed_drefs.map (fun sdf => (sdf.1, ⟨none, none⟩)) }

/-- Errors raised by the receive loops and synchronous queries.  `framing`
is `ValueError("Received data is not 8 bytes long")`, `invalidIndex` is
`ValueError("Received a packet with invalid index.")`, `unknownPacket` is
`XPlaneConnect2`'s `ValueError("Unknown packet")`, `keyError` is the `KeyError`
raised by an unknown slot id in `XPlaneConnect2._observe`, `invalidHeader` is
`getPOSI`'s `ValueError("Received invalid header.")`. -/
inductive ObserveError
  | framing
  | invalidIndex
  | unknownPacket
  | keyError
  | invalidHeader
deriving DecidableEq

/-- One iteration of the record loop in `XPlaneConnectX._observe` (lines
72-76): a decoded `{slotId, value}` record updates the cache entry of the
name registered to the slot, or raises `invalidIndex`. -/
def processRecord (e : Engine) (now : Nat) (idx : Int) (value : Nat) :
    Engine × Option ObserveError :=
  match dictGet e.reverse_index idx with
  | some name =>
      ({ e with current_dref_values :=
          dictSet e.current_dref_values name ⟨some value, some now⟩ }, none)
  | none => (e, some .invalidIndex)

/-- One iteration of the record loop in `XPlaneConnect2._observe` (lines
41-45): same update, but an unknown slot id raises `KeyError` from
`self.reverse_index[idx]`. -/
def processRecord2 (e : Engine) (now : Nat) (idx : Int) (value : Nat) :
    Engine × Option ObserveError :=
  match dictGet e.reverse_index idx with
  | some name =>
      ({ e with current_dref_values :=
          dictSet e.current_dref_values name ⟨some value, some now⟩ }, none)
  | none => (e, some .keyError)

/-- Decoded 8-byte records of an update payload: consecutive
`struct.unpack("<if", data[(5+p*8):(5+(p+1)*8)])` groups. -/
def toRecords : List Nat → List (Int × Nat)
  | b0 :: b1 :: b2 :: b3 :: b4 :: b5 :: b6 :: b7 :: rest =>
      (decInt32 [b0, b1, b2, b3], leVal [b4, b5, b6, b7]) :: toRecords rest
  | _ => []

/-- The record loop of `_observe`: records are applied in order, each update
taking the current time (`times k` is the instant `datetime.datetime.now()`
returns at the `k`-th call); a raise aborts the loop, keeping the updates
already applied. -/
def processRecords (times : Nat → Nat) :
    Engine → Nat → List (Int × Nat) → Engine × Option ObserveError
  | e, _, [] => (e, none)
  | e, k, (idx, v) :: rest =>
      match processRecord e (times k) idx v with
      | (e', none) => processRecords times e' (k + 1) rest
      | (e', some err) => (e', some err)

/-- Same record loop for `XPlaneConnect2._observe`. -/
def processRecords2 (times : Nat → Nat) :
    Engine → Nat → List (Int × Nat) → Engine × Option ObserveError
  | e, _, [] => (e, none)
  | e, k, (idx, v) :: rest =>
      match processRecord2 e (times k) idx v with
      | (e', none) => processRecords2 times e' (k + 1) rest
      | (e', some err) => (e', some err)

/-- One pass of the receive loop `XPlaneConnectX._observe` (lines 62-76) on a
received datagram: a non-`RREF` tag is silently skipped (the `if` has no
`else`); under the `RREF` tag, a payload length not reducible to a multiple
of 8 after the 5-byte header raises `framing` before any record is applied,
and otherwise the records are applied in order. -/
def observe_step (e : Engine) (times : Nat → Nat) (data : List Nat) :
    Engine × Option ObserveError :=
  if data.take 4 = rrefTag then
    if ((data.length : Int) - 5) % 8 ≠ 0 then (e, some .framing)
    else processRecords times e 0 (toRecords (data.drop 5))
  else (e, none)

/-- One pass of the receive loop `XPlaneConnect2._observe` (lines 33-45): a
non-`RREF` tag raises `unknownPacket`; the rest matches `observe_step`
except that an unknown slot id raises `keyError`. -/
def observe_step2 (e : Engine) (times : Nat → Nat) (data : List Nat) :
    Engine × Option ObserveError :=
  if data.take 4 ≠ rrefTag then (e, some .unknownPacket)
  else if ((data.length : Int) - 5) % 8 ≠ 0 then (e, some .framing)
  else processRecords2 times e 0 (toRecords (data.drop 5))

/-- Outcome of `XPlaneConnectX.getDREF`.  `success` returns the received
single-precision bit pattern; `invalidIndex` is
`ValueError("Invalid index received.")`; `structError` is the `struct.error`
raised when `data[5:]` is not exactly 8 bytes; `timeoutError` stands for
`socket.timeout`, which `recvfrom` could only raise if a timeout had been
configured on the socket; `blocked` means the call is still inside
`recvfrom` because no datagram arrived. -/
inductive GetDREFResult
  | success (value : Nat)
  | invalidIndex
  | structError
  | timeoutError
  | blocked
deriving DecidableEq

/-- Observable behaviour of one `getDREF` call: the subscribe request sent on
the temporary socket, the outcome, and the unsubscribe request when one was
sent. -/
structure GetDREFRun where
  request : List Nat
  result : GetDREFResult
  unsubscribe : Option (List Nat)
deriving DecidableEq

/-- One-shot slot id chosen by `getDREF` (line 98):
`len(list(self.reverse_index.keys())) + 10`. -/
def getDREF_idx (e : Engine) : Int := (e.reverse_index.length : Int) + 10

/-- `XPlaneConnectX.getDREF` (lines 97-111) on the engine state `e`, the
UTF-8 bytes `dref` of the queried name, and the datagram delivered to the
temporary socket (`none` when no datagram ever arrives; the socket has no
timeout configured, so `recvfrom` then never returns).  The engine state is
returned alongside the run; the method assigns no `self` field. -/
def getDREF (e : Engine) (dref : List Nat) (reply : Option (List Nat)) :
    GetDREFRun × Engine :=
  let idx := getDREF_idx e
  let msg := encodeRREFRequest { freq := 10, slot := idx, dref := dref }
  match reply with
  | none => ({ request := msg, result := .blocked, unsubscribe := none }, e)
  | some data =>
      match decodeUpdateRecord (data.drop 5) with
      | none => ({ request := msg, result := .structError, unsubscribe := none }, e)
      | some upd =>
          if upd.slot ≠ idx then
            ({ request := msg, result := .invalidIndex, unsubscribe := none }, e)
          else
            ({ request := msg, result := .success upd.value,
               unsubscribe :=
                 some (encodeRREFRequest { freq := 0, slot := idx, dref := dref }) }, e)

/-- Position-query request (`struct.pack('4sx10s', b'RPOS', rate)`): the rate
is a decimal string in a 10-byte field. -/
def rposRequest (rate : List Nat) : List Nat :=
  rposTag ++ ([0] ++ padTo 10 rate)

/-- Outcome of `XPlaneConnectX.getPOSI`.  `invalidHeader` is
`ValueError("Received invalid header.")`; `structError` is the `struct.error`
raised when `data[4:]` is not exactly 65 bytes; `blocked` means no datagram
arrived and `recvfrom` never returned. -/
inductive GetPOSIResult
  | success (r : RPOSReply)
  | invalidHeader
  | structError
  | blocked
deriving DecidableEq

/-- Observable behaviour of one `getPOSI` call. -/
structure GetPOSIRun where
  request : List Nat
  result : GetPOSIResult
  unsubscribe : Option (List Nat)
deriving DecidableEq

/-- `XPlaneConnectX.getPOSI` (lines 201-230) on the engine state `e` and the
datagram delivered to the temporary socket.  The request asks for `RPOS` at
rate `b'100'`; the first received datagram either carries the `RPOS` tag (and
is decoded, followed by an `RPOS` rate-`b'0'` cancellation) or raises
`invalidHeader`.  The method assigns no `self` field. -/
def getPOSI (e : Engine) (reply : Option (List Nat)) : GetPOSIRun × Engine :=
  let msg := rposRequest [49, 48, 48]
  match reply with
  | none => ({ request := msg, result := .blocked, unsubscribe := none }, e)
  | some data =>
      if data.take 4 = rposTag then
        match decodeRPOSReply data with
        | some r =>
            ({ request := msg, result := .success r,
               unsubscribe := some (rposRequest [48]) }, e)
        | none => ({ request := msg, result := .structError, unsubscribe := none }, e)
      else ({ request := msg, result := .invalidHeader, unsubscribe := none }, e)

/-- Update-reply datagram of the two-subscription scenario: `RREF` tag, one
padding byte, then the records `{0: 12.5}` and `{1: 3.25}` (the byte groups
`[0,0,72,65]` and `[0,0,80,64]` are the little-endian single-precision
patterns of 12.5 and 3.25). -/
def c1_datagram : List Nat :=
  rrefTag ++ [0, 0, 0, 0, 0, 0, 0, 72, 65, 1, 0, 0, 0, 0, 0, 80, 64]

/-- Bit pattern carried by the first scenario record (12.5). -/
def c1_val0 : Nat := leVal [0, 0, 72, 65]

/-- Bit pattern carried by the second scenario record (3.25). -/
def c1_val1 : Nat := leVal [0, 0, 80, 64]

/-- Engine with no permanent subscriptions. -/
def emptyEngine : Engine := subscribeDREFs []

/-- Engine subscribed to two distinct names, used to instantiate scenario
theorems. -/
def twoSubEngine : Engine := subscribeDREFs [("a", 1), ("b", 2)]

/-- A malformed `RREF` datagram: 7 bytes, so the payload after the 5-byte
header is 2 bytes, not a multiple of 8. -/
def c2_datagram : List Nat := rrefTag ++ [0, 1, 2]

/-- A datagram whose 4-byte magic tag (`b'XXXX'`) is not a recognised
message kind. -/
def c3_datagram : List Nat := [88, 88, 88, 88, 0]

/-- Engine whose subscription list registers the same name under two slot
ids, as produced by `subscribeDREFs([("a", 1), ("a", 2)])`. -/
def c9_engine : Engine := subscribeDREFs [("a", 1), ("a", 2)]

/-- A 13-byte reply whose record carries slot id 3, mismatching the one-shot
slot id 10 that `getDREF` on `emptyEngine` expects. -/
def c4_reply : List Nat := [0, 0, 0, 0, 0, 3, 0, 0, 0, 0, 0, 0, 0]

/-- Engine state with an empty registry and an empty cache. -/
def c10_e1 : Engine := { reverse_index := [], current_dref_values := [] }

/-- Engine state with the same (empty) cache as `c10_e1` but one registry
entry. -/
def c10_e2 : Engine := { reverse_index := [(0, "a")], current_dref_values := [] }

/-- Concrete subscribe request used to instantiate the round-trip theorem. -/
def wRREF : RREFRequest := { freq := 5, slot := -2, dref := [115, 105, 109] }

/-- Concrete update record used to instantiate the round-trip theorem. -/
def wUpd : UpdateRecord := { slot := 7, value := 1095237632 }

/-- Concrete write request used to instantiate the round-trip theorem. -/
def wDREF : DREFWrite := { value := 1078984704, dref := [115, 105, 109] }

/-- Concrete command request used to instantiate the round-trip theorem. -/
def wCMND : CMNDRequest := { command := [113, 117, 105, 116] }

/-- Concrete position-set request used to instantiate the round-trip
theorem. -/
def wVEHS : VEHSRequest :=
  { ac := 0, lat := 2 ^ 63 + 3, lon := 17, elev := 2 ^ 64 - 1,
    psi_true := 2 ^ 31 + 1, theta := 0, phi := 4294967295 }

/-- Concrete position reply used to instantiate the round-trip theorem. -/
def wRPOS : RPOSReply :=
  { lon := 1, lat := 2 ^ 64 - 2, ele := 3, y_agl := 4, theta := 5,
    psi_true := 6, phi := 7, vx := 8, vy := 9, vz := 10, p := 11, q := 12,
    r := 2 ^ 32 - 1 }

theorem leBytes_length (k n : Nat) : (leBytes k n).length = k := by
  induction k generalizing n with
  | zero => rfl
  | succ k ih => simp [leBytes, ih]

theorem leVal_leBytes (k n : Nat) (h : n < 256 ^ k) :
    leVal (leBytes k n) = n := by
  induction k generalizing n with
  | zero => simp at h; simp [leBytes, leVal, h]
  | succ k ih =>
      have hdiv : n / 256 < 256 ^ k := by
        rw [Nat.div_lt_iff_lt_mul (by omega : 0 < 256)]
        rw [Nat.pow_succ] at h; omega
      simp [leBytes, leVal, ih (n / 256) hdiv]
      omega

theorem encInt32_length (i : Int) : (encInt32 i).length = 4 :=
  leBytes_length 4 _

theorem decInt32_encInt32 (i : Int) (hlo : -(2 ^ 31) ≤ i) (hhi : i < 2 ^ 31) :
    decInt32 (encInt32 i) = i := by
  have h0 : (0 : Int) < 2 ^ 32 := by norm_num
  have hnn : 0 ≤ i % (2 ^ 32) := Int.emod_nonneg i (by norm_num)
  have hlt : i % (2 ^ 32) < 2 ^ 32 := Int.emod_lt_of_pos i h0
  have h32 : (2 : Int) ^ 32 = 4294967296 := by norm_num
  have hdiv := Int.emod_add_ediv i (2 ^ 32)
  have hcases : i % (2 ^ 32) = i ∨ i % (2 ^ 32) = i + 2 ^ 32 := by
    rw [h32] at hnn hlt hdiv ⊢
    omega
  have hbytes : leVal (leBytes 4 (i % (2 ^ 32)).toNat) =
      (i % (2 ^ 32)).toNat := by
    apply leVal_leBytes
    have : ((i % (2 ^ 32)).toNat : Int) < 2 ^ 32 := by
      rw [Int.toNat_of_nonneg hnn]; exact hlt
    norm_num at this ⊢
    omega
  simp only [decInt32, encInt32, hbytes]
  rcases hcases with hc | hc
  · have hi0 : 0 ≤ i := by omega
    have : ((i % (2 ^ 32)).toNat : Int) = i := by
      rw [Int.toNat_of_nonneg hnn, hc]
    split
    · omega
    · rename_i hge
      have : ((i % (2 ^ 32)).toNat : Int) ≥ 2 ^ 31 := by
        push_cast
        omega
      omega
  · have : ((i % (2 ^ 32)).toNat : Int) = i + 2 ^ 32 := by
      rw [Int.toNat_of_nonneg hnn, hc]
    split
    · rename_i hlt2
      have : ((i % (2 ^ 32)).toNat : Int) < 2 ^ 31 := by
        push_cast
        omega
      omega
    · omega

theorem padTo_length (w : Nat) (bs : List Nat) : (padTo w bs).length = w := by
  simp [padTo]
  omega

theorem takeWhile_append_zeros (bs zs : List Nat) (hnz : ∀ b ∈ bs, b ≠ 0)
    (hzs : ∀ z ∈ zs, z = 0) :
    (bs ++ zs).takeWhile (fun b => b != 0) = bs := by
  induction bs with
  | nil =>
      cases zs with
      | nil => rfl
      | cons z rest =>
          have hz : z = 0 := hzs z (by simp)
          simp [List.takeWhile, hz]
  | cons b rest ih =>
      have hb : b ≠ 0 := hnz b (by simp)
      have hrest : ∀ x ∈ rest, x ≠ 0 := fun x hx => hnz x (by simp [hx])
      simp only [List.cons_append, List.takeWhile]
      have hbne : (b != 0) = true := by simpa using hb
      rw [hbne]
      simp [ih hrest]

theorem unpad_padTo (w : Nat) (bs : List Nat) (hlen : bs.length ≤ w)
    (hnz : ∀ b ∈ bs, b ≠ 0) : unpad (padTo w bs) = bs := by
  have htake : bs.take w = bs := List.take_of_length_le hlen
  simp only [padTo, htake, unpad]
  exact takeWhile_append_zeros bs _ hnz (fun z hz => by
    simpa using List.eq_of_mem_replicate hz)

theorem take_append_eq (xs ys : List Nat) (n : Nat) (h : xs.length = n) :
    (xs ++ ys).take n = xs := by
  subst h
  induction xs with
  | nil => rfl
  | cons x rest ih => simp [List.take, ih]

theorem drop_append_eq (xs ys : List Nat) (n : Nat) (h : xs.length = n) :
    (xs ++ ys).drop n = ys := by
  subst h
  induction xs with
  | nil => rfl
  | cons x rest ih => simp [List.drop, ih]

theorem leVal_leBytes4 (n : Nat) (h : n < 2 ^ 32) : leVal (leBytes 4 n) = n :=
  leVal_leBytes 4 n (by norm_num at h ⊢; exact h)

theorem leVal_leBytes8 (n : Nat) (h : n < 2 ^ 64) : leVal (leBytes 8 n) = n :=
  leVal_leBytes 8 n (by norm_num at h ⊢; exact h)

theorem field_extract (l : List Nat) (off k : Nat) (field rest : List Nat)
    (h : l.drop off = field ++ rest) (hk : field.length = k) :
    (l.drop off).take k = field ∧ l.drop (off + k) = rest := by
  refine ⟨by rw [h]; exact take_append_eq _ _ k hk, ?_⟩
  have hd : l.drop (off + k) = (l.drop off).drop k := (List.drop_drop k off l).symm
  rw [hd, h]
  exact drop_append_eq _ _ k hk

theorem decode_encode_rref (m : RREFRequest) (h : m.wf) :
    decodeRREFRequest (encodeRREFRequest m) = some m := by
  obtain ⟨hf1, hf2, hs1, hs2, hlen, hnz⟩ := h
  have lf := encInt32_length m.freq
  have ls := encInt32_length m.slot
  have hlen413 : (encodeRREFRequest m).length = 413 := by
    simp [encodeRREFRequest, rrefTag, lf, ls, padTo_length]
  have htag : (encodeRREFRequest m).take 4 = rrefTag :=
    take_append_eq _ _ 4 (by decide)
  have h5 : (encodeRREFRequest m).drop 5 =
      encInt32 m.freq ++ (encInt32 m.slot ++ padTo 400 m.dref) :=
    drop_append_eq (rrefTag ++ [0]) _ 5 (by decide)
  have t5 := (field_extract _ 5 4 _ _ h5 lf).1
  have h9 : (encodeRREFRequest m).drop 9 =
      encInt32 m.slot ++ padTo 400 m.dref :=
    (field_extract _ 5 4 _ _ h5 lf).2
  have t9 := (field_extract _ 9 4 _ _ h9 ls).1
  have h13 : (encodeRREFRequest m).drop 13 = padTo 400 m.dref :=
    (field_extract _ 9 4 _ _ h9 ls).2
  unfold decodeRREFRequest
  rw [if_pos ⟨hlen413, htag⟩, t5, t9, h13, decInt32_encInt32 _ hf1 hf2,
    decInt32_encInt32 _ hs1 hs2,
    unpad_padTo 400 _ hlen (fun b hb => (hnz b hb).1)]

theorem decode_encode_update (m : UpdateRecord) (h : m.wf) :
    decodeUpdateRecord (encodeUpdateRecord m) = some m := by
  obtain ⟨hs1, hs2, hv⟩ := h
  have ls := encInt32_length m.slot
  have lv := leBytes_length 4 m.value
  have hlen8 : (encodeUpdateRecord m).length = 8 := by
    simp [encodeUpdateRecord, ls, lv]
  have ht : (encodeUpdateRecord m).take 4 = encInt32 m.slot :=
    take_append_eq _ _ 4 ls
  have hd : (encodeUpdateRecord m).drop 4 = leBytes 4 m.value :=
    drop_append_eq _ _ 4 ls
  unfold decodeUpdateRecord
  rw [if_pos hlen8, ht, hd, decInt32_encInt32 _ hs1 hs2, leVal_leBytes4 _ hv]

theorem decode_encode_dref (m : DREFWrite) (h : m.wf) :
    decodeDREFWrite (encodeDREFWrite m) = some m := by
  obtain ⟨hv, hlen, hnz⟩ := h
  have lv := leBytes_length 4 m.value
  have hlen509 : (encodeDREFWrite m).length = 509 := by
    simp [encodeDREFWrite, drefTag, lv, padTo_length]
  have htag : (encodeDREFWrite m).take 4 = drefTag :=
    take_append_eq _ _ 4 (by decide)
  have h5 : (encodeDREFWrite m).drop 5 =
      leBytes 4 m.value ++ padTo 500 m.dref :=
    drop_append_eq (drefTag ++ [0]) _ 5 (by decide)
  have t5 := (field_extract _ 5 4 _ _ h5 lv).1
  have h9 : (encodeDREFWrite m).drop 9 = padTo 500 m.dref :=
    (field_extract _ 5 4 _ _ h5 lv).2
  unfold decodeDREFWrite
  rw [if_pos ⟨hlen509, htag⟩, t5, h9, leVal_leBytes4 _ hv,
    unpad_padTo 500 _ hlen (fun b hb => (hnz b hb).1)]

theorem decode_encode_cmnd (m : CMNDRequest) (h : m.wf) :
    decodeCMNDRequest (encodeCMNDRequest m) = some m := by
  obtain ⟨hlen, hnz⟩ := h
  have hlen505 : (encodeCMNDRequest m).length = 505 := by
    simp [encodeCMNDRequest, cmndTag, padTo_length]
  have htag : (encodeCMNDRequest m).take 4 = cmndTag :=
    take_append_eq _ _ 4 (by decide)
  have h5 : (encodeCMNDRequest m).drop 5 = padTo 500 m.command :=
    drop_append_eq (cmndTag ++ [0]) _ 5 (by decide)
  unfold decodeCMNDRequest
  rw [if_pos ⟨hlen505, htag⟩, h5,
    unpad_padTo 500 _ hlen (fun b hb => (hnz b hb).1)]

theorem decode_encode_vehs (m : VEHSRequest) (h : m.wf) :
    decodeVEHSRequest (encodeVEHSRequest m) = some m := by
  obtain ⟨ha1, ha2, hlat, hlon, hele, hpsi, hth, hphi⟩ := h
  have la := encInt32_length m.ac
  have l1 := leBytes_length 8 m.lat
  have l2 := leBytes_length 8 m.lon
  have l3 := leBytes_length 8 m.elev
  have l4 := leBytes_length 4 m.psi_true
  have l5 := leBytes_length 4 m.theta
  have l6 := leBytes_length 4 m.phi
  have hlen45 : (encodeVEHSRequest m).length = 45 := by
    simp [encodeVEHSRequest, vehsTag, la, l1, l2, l3, l4, l5, l6]
  have htag : (encodeVEHSRequest m).take 4 = vehsTag :=
    take_append_eq _ _ 4 (by decide)
  have h5 : (encodeVEHSRequest m).drop 5 =
      encInt32 m.ac ++ (leBytes 8 m.lat ++ (leBytes 8 m.lon ++
        (leBytes 8 m.elev ++ (leBytes 4 m.psi_true ++ (leBytes 4 m.theta ++
          leBytes 4 m.phi))))) :=
    drop_append_eq (vehsTag ++ [0]) _ 5 (by decide)
  have t5 := (field_extract _ 5 4 _ _ h5 la).1
  have h9 : (encodeVEHSRequest m).drop 9 =
      leBytes 8 m.lat ++ (leBytes 8 m.lon ++ (leBytes 8 m.elev ++
        (leBytes 4 m.psi_true ++ (leBytes 4 m.theta ++ leBytes 4 m.phi)))) :=
    (field_extract _ 5 4 _ _ h5 la).2
  have t9 := (field_extract _ 9 8 _ _ h9 l1).1
  have h17 : (encodeVEHSRequest m).drop 17 =
      leBytes 8 m.lon ++ (leBytes 8 m.elev ++ (leBytes 4 m.psi_true ++
        (leBytes 4 m.theta ++ leBytes 4 m.phi))) :=
    (field_extract _ 9 8 _ _ h9 l1).2
  have t17 := (field_extract _ 17 8 _ _ h17 l2).1
  have h25 : (encodeVEHSRequest m).drop 25 =
      leBytes 8 m.elev ++ (leBytes 4 m.psi_true ++ (leBytes 4 m.theta ++
        leBytes 4 m.phi)) :=
    (field_extract _ 17 8 _ _ h17 l2).2
  have t25 := (field_extract _ 25 8 _ _ h25 l3).1
  have h33 : (encodeVEHSRequest m).drop 33 =
      leBytes 4 m.psi_true ++ (leBytes 4 m.theta ++ leBytes 4 m.phi) :=
    (field_extract _ 25 8 _ _ h25 l3).2
  have t33 := (field_extract _ 33 4 _ _ h33 l4).1
  have h37 : (encodeVEHSRequest m).drop 37 =
      leBytes 4 m.theta ++ leBytes 4 m.phi :=
    (field_extract _ 33 4 _ _ h33 l4).2
  have t37 := (field_extract _ 37 4 _ _ h37 l5).1
  have h41 : (encodeVEHSRequest m).drop 41 = leBytes 4 m.phi :=
    (field_extract _ 37 4 _ _ h37 l5).2
  have t41 : ((encodeVEHSRequest m).drop 41).take 4 = leBytes 4 m.phi := by
    rw [h41]
    exact List.take_of_length_le (by rw [l6])
  unfold decodeVEHSRequest
  rw [if_pos ⟨hlen45, htag⟩, t5, t9, t17, t25, t33, t37, t41,
    decInt32_encInt32 _ ha1 ha2, leVal_leBytes8 _ hlat, leVal_leBytes8 _ hlon,
    leVal_leBytes8 _ hele, leVal_leBytes4 _ hpsi, leVal_leBytes4 _ hth,
    leVal_leBytes4 _ hphi]

theorem decode_encode_rpos (m : RPOSReply) (h : m.wf) :
    decodeRPOSReply (encodeRPOSReply m) = some m := by
  obtain ⟨h1, h2, h3, h4, h5w, h6, h7, h8, h9w, h10, h11, h12, h13w⟩ := h
  have l1 := leBytes_length 8 m.lon
  have l2 := leBytes_length 8 m.lat
  have l3 := leBytes_length 8 m.ele
  have l4 := leBytes_length 4 m.y_agl
  have l5 := leBytes_length 4 m.theta
  have l6 := leBytes_length 4 m.psi_true
  have l7 := leBytes_length 4 m.phi
  have l8 := leBytes_length 4 m.vx
  have l9 := leBytes_length 4 m.vy
  have l10 := leBytes_length 4 m.vz
  have l11 := leBytes_length 4 m.p
  have l12 := leBytes_length 4 m.q
  have l13 := leBytes_length 4 m.r
  have hlen69 : (encodeRPOSReply m).length = 69 := by
    simp [encodeRPOSReply, rposTag, l1, l2, l3, l4, l5, l6, l7, l8, l9, l10,
      l11, l12, l13]
  have htag : (encodeRPOSReply m).take 4 = rposTag :=
    take_append_eq _ _ 4 (by decide)
  have h5 : (encodeRPOSReply m).drop 5 =
      leBytes 8 m.lon ++ (leBytes 8 m.lat ++ (leBytes 8 m.ele ++
        (leBytes 4 m.y_agl ++ (leBytes 4 m.theta ++ (leBytes 4 m.psi_true ++
          (leBytes 4 m.phi ++ (leBytes 4 m.vx ++ (leBytes 4 m.vy ++
            (leBytes 4 m.vz ++ (leBytes 4 m.p ++ (leBytes 4 m.q ++
              leBytes 4 m.r))))))))))) :=
    drop_append_eq (rposTag ++ [0]) _ 5 (by decide)
  have t5 := (field_extract _ 5 8 _ _ h5 l1).1
  have h13 := (field_extract _ 5 8 _ _ h5 l1).2
  have t13 := (field_extract _ 13 8 _ _ h13 l2).1
  have h21 := (field_extract _ 13 8 _ _ h13 l2).2
  have t21 := (field_extract _ 21 8 _ _ h21 l3).1
  have h29 := (field_extract _ 21 8 _ _ h21 l3).2
  have t29 := (field_extract _ 29 4 _ _ h29 l4).1
  have h33 := (field_extract _ 29 4 _ _ h29 l4).2
  have t33 := (field_extract _ 33 4 _ _ h33 l5).1
  have h37 := (field_extract _ 33 4 _ _ h33 l5).2
  have t37 := (field_extract _ 37 4 _ _ h37 l6).1
  have h41 := (field_extract _ 37 4 _ _ h37 l6).2
  have t41 := (field_extract _ 41 4 _ _ h41 l7).1
  have h45 := (field_extract _ 41 4 _ _ h41 l7).2
  have t45 := (field_extract _ 45 4 _ _ h45 l8).1
  have h49 := (field_extract _ 45 4 _ _ h45 l8).2
  have t49 := (field_extract _ 49 4 _ _ h49 l9).1
  have h53 := (field_extract _ 49 4 _ _ h49 l9).2
  have t53 := (field_extract _ 53 4 _ _ h53 l10).1
  have h57 := (field_extract _ 53 4 _ _ h53 l10).2
  have t57 := (field_extract _ 57 4 _ _ h57 l11).1
  have h61 := (field_extract _ 57 4 _ _ h57 l11).2
  have t61 := (field_extract _ 61 4 _ _ h61 l12).1
  have h65 : (encodeRPOSReply m).drop 65 = leBytes 4 m.r :=
    (field_extract _ 61 4 _ _ h61 l12).2
  have t65 : ((encodeRPOSReply m).drop 65).take 4 = leBytes 4 m.r := by
    rw [h65]
    exact List.take_of_length_le (by rw [l13])
  unfold decodeRPOSReply
  rw [if_pos ⟨hlen69, htag⟩, t5, t13, t21, t29, t33, t37, t41, t45, t49, t53,
    t57, t61, t65, leVal_leBytes8 _ h1, leVal_leBytes8 _ h2,
    leVal_leBytes8 _ h3, leVal_leBytes4 _ h4, leVal_leBytes4 _ h5w,
    leVal_leBytes4 _ h6, leVal_leBytes4 _ h7, leVal_leBytes4 _ h8,
    leVal_leBytes4 _ h9w, leVal_leBytes4 _ h10, leVal_leBytes4 _ h11,
    leVal_leBytes4 _ h12, leVal_leBytes4 _ h13w]

theorem dictGet_dictSet_self {K V : Type} [DecidableEq K]
    (d : List (K × V)) (k : K) (v : V) : dictGet (dictSet d k v) k = some v := by
  induction d with
  | nil => simp [dictGet, dictSet]
  | cons kv rest ih =>
      obtain ⟨k', v'⟩ := kv
      by_cases h : k' = k
      · simp [dictSet, dictGet, h]
      · simp [dictSet, dictGet, h, ih]

theorem dictGet_dictSet_ne {K V : Type} [DecidableEq K]
    (d : List (K × V)) (k k' : K) (v : V) (h : k' ≠ k) :
    dictGet (dictSet d k v) k' = dictGet d k' := by
  induction d with
  | nil => simp [dictGet, dictSet, Ne.symm h]
  | cons kv rest ih =>
      obtain ⟨k0, v0⟩ := kv
      by_cases h0 : k0 = k
      · subst h0
        simp [dictSet, dictGet, Ne.symm h]
      · simp [dictSet, dictGet, h0, ih]

theorem dictGet_mem_keys {K V : Type} [DecidableEq K] (d : List (K × V))
    (k : K) (v : V) (h : dictGet d k = some v) : k ∈ d.map Prod.fst := by
  induction d with
  | nil => simp [dictGet] at h
  | cons kv rest ih =>
      obtain ⟨k0, v0⟩ := kv
      by_cases h0 : k0 = k
      · subst h0; simp
      · simp only [dictGet, h0, if_false, if_neg h0] at h
        simp only [List.map_cons]
        exact List.mem_cons_of_mem _ (ih h)

/-- C2: a received datagram carrying the `RREF` tag whose total length minus
5 is not a multiple of 8 makes both receive loops report a framing error,
and the engine state — in particular every cache entry — is unchanged. -/
theorem c2_framing_error (e e2 : Engine) (times : Nat → Nat) (data : List Nat)
    (htag : data.take 4 = rrefTag)
    (hlen : ((data.length : Int) - 5) % 8 ≠ 0) :
    observe_step e times data = (e, some .framing) ∧
    observe_step2 e2 times data = (e2, some .framing) := by
  refine ⟨?_, ?_⟩
  · unfold observe_step
    rw [if_pos htag, if_pos hlen]
  · unfold observe_step2
    rw [if_neg (by simp [htag]), if_pos hlen]

theorem c2_witness :
    c2_datagram.take 4 = rrefTag ∧
    ((c2_datagram.length : Int) - 5) % 8 ≠ 0 ∧
    observe_step emptyEngine (fun k => k) c2_datagram =
      (emptyEngine, some .framing) ∧
    observe_step2 twoSubEngine (fun k => k) c2_datagram =
      (twoSubEngine, some .framing) := by
  have h := c2_framing_error emptyEngine twoSubEngine (fun k => k) c2_datagram
    (by decide) (by decide)
  exact ⟨by decide, by decide, h.1, h.2⟩

/-- C3 counterexample: `XPlaneConnectX._observe` on a datagram whose magic
tag is `b'XXXX'` reports no error at all — the result carries `none` — and
silently returns to listening, contradicting the claim that every
unrecognised tag is reported as a framing error. -/
theorem c3_counterexample :
    observe_step twoSubEngine (fun k => k) c3_datagram = (twoSubEngine, none) := by
  decide

/-- C3 amended: on a datagram whose tag is not `RREF`,
`XPlaneConnect2._observe` raises an `unknownPacket` error, while
`XPlaneConnectX._observe` silently skips the datagram, leaving the state
unchanged and reporting nothing. -/
theorem c3_unrecognized_tag (e e2 : Engine) (times times2 : Nat → Nat)
    (data : List Nat) (htag : data.take 4 ≠ rrefTag) :
    observe_step e times data = (e, none) ∧
    observe_step2 e2 times2 data = (e2, some .unknownPacket) := by
  refine ⟨?_, ?_⟩
  · unfold observe_step
    rw [if_neg htag]
  · unfold observe_step2
    rw [if_pos htag]

theorem c3_witness :
    c3_datagram.take 4 ≠ rrefTag ∧
    observe_step emptyEngine (fun k => k) c3_datagram = (emptyEngine, none) ∧
    observe_step2 emptyEngine (fun k => k) c3_datagram =
      (emptyEngine, some .unknownPacket) := by
  have h := c3_unrecognized_tag emptyEngine emptyEngine (fun k => k)
    (fun k => k) c3_datagram (by decide)
  exact ⟨by decide, h.1, h.2⟩

/-- C6: for a registry built by `subscribeDREFs` from an `n`-element list,
every registered slot id differs from the one-shot slot id
`len(reverse_index) + 10` chosen by `getDREF`, so the permanent slot ids and
the in-flight one-shot slot id are disjoint. -/
theorem c6_slot_partition (lst : List (String × Int)) (k : Int) (nm : String)
    (h : dictGet (subscribeDREFs lst).reverse_index k = some nm) :
    k ≠ getDREF_idx (subscribeDREFs lst) := by
  have hk := dictGet_mem_keys _ _ _ h
  simp only [subscribeDREFs, List.map_map] at hk
  rw [List.mem_map] at hk
  obtain ⟨p, hp, hpk⟩ := hk
  have h1 : p.1 ∈ List.range lst.length := (List.of_mem_zip hp).1
  rw [List.mem_range] at h1
  have hlen : (subscribeDREFs lst).reverse_index.length = lst.length := by
    simp [subscribeDREFs]
  rw [getDREF_idx, hlen]
  simp only [Function.comp] at hpk
  intro hcon
  rw [← hpk] at hcon
  omega

theorem c6_witness :
    dictGet (subscribeDREFs [("a", 1), ("b", 2)]).reverse_index 0 = some "a" ∧
    (0 : Int) ≠ getDREF_idx (subscribeDREFs [("a", 1), ("b", 2)]) := by
  have h := c6_slot_partition [("a", 1), ("b", 2)] 0 "a" (by decide)
  exact ⟨by decide, h⟩

/-- C7: a decoded update record whose slot id has no registry entry makes
`XPlaneConnectX._observe` raise the invalid-index protocol error and
`XPlaneConnect2._observe` raise a `KeyError`; neither loop drops the record
silently, and the engine state is unchanged. -/
theorem c7_unexpected_index (e : Engine) (now : Nat) (idx : Int) (v : Nat)
    (h : dictGet e.reverse_index idx = none) :
    processRecord e now idx v = (e, some .invalidIndex) ∧
    processRecord2 e now idx v = (e, some .keyError) := by
  unfold processRecord processRecord2
  rw [h]
  exact ⟨rfl, rfl⟩

theorem c7_witness :
    dictGet twoSubEngine.reverse_index 5 = none ∧
    processRecord twoSubEngine 3 5 77 = (twoSubEngine, some .invalidIndex) ∧
    processRecord2 twoSubEngine 3 5 77 = (twoSubEngine, some .keyError) := by
  have h := c7_unexpected_index twoSubEngine 3 5 77 (by decide)
  exact ⟨by decide, h.1, h.2⟩

/-- C9 counterexample: with the reachable state
`subscribeDREFs([("a", 1), ("a", 2)])`, name `"a"` is registered to slot 1,
yet processing a record for slot 0 changes the cache entry of `"a"` — an
entry registered to a slot id other than 0 is mutated, contradicting the
claim as stated. -/
theorem c9_counterexample :
    dictGet c9_engine.reverse_index 1 = some "a" ∧ (1 : Int) ≠ 0 ∧
    dictGet (processRecord c9_engine 5 0 99).1.current_dref_values "a" ≠
      dictGet c9_engine.current_dref_values "a" := by
  decide

/-- C9 amended: processing a record for slot `idx` never touches the
registry, and every cache entry whose name differs from the name registered
to `idx` is unchanged (when `idx` is unregistered, nothing is written at
all). -/
theorem c9_update_isolation (e : Engine) (now : Nat) (idx : Int) (v : Nat)
    (nm : String) (h : dictGet e.reverse_index idx ≠ some nm) :
    (processRecord e now idx v).1.reverse_index = e.reverse_index ∧
    dictGet (processRecord e now idx v).1.current_dref_values nm =
      dictGet e.current_dref_values nm := by
  unfold processRecord
  cases hh : dictGet e.reverse_index idx with
  | none => exact ⟨rfl, rfl⟩
  | some nm' =>
      have hne : nm ≠ nm' := by
        intro hcon
        exact h (by rw [hcon]; exact hh)
      exact ⟨rfl, dictGet_dictSet_ne _ nm' nm _ hne⟩

theorem c9_witness :
    dictGet c9_engine.reverse_index 0 ≠ some "b" ∧
    dictGet (processRecord c9_engine 5 0 99).1.current_dref_values "b" =
      dictGet c9_engine.current_dref_values "b" := by
  have h := c9_update_isolation c9_engine 5 0 99 "b" (by decide)
  exact ⟨by decide, h.2⟩

/-- C1: in every engine state registering slots 0 and 1 to two distinct
names, processing the reply datagram with records `{0: 12.5}` and
`{1: 3.25}` succeeds and leaves the cache with `name0` holding the pattern
of 12.5 stamped at the first `now()` call and `name1` holding the pattern of
3.25 stamped at the second, the second stamp not earlier than the first. -/
theorem c1_scenario (e : Engine) (times : Nat → Nat) (name0 name1 : String)
    (h0 : dictGet e.reverse_index 0 = some name0)
    (h1 : dictGet e.reverse_index 1 = some name1)
    (hne : name0 ≠ name1)
    (hmono : ∀ i j : Nat, i ≤ j → times i ≤ times j) :
    (observe_step e times c1_datagram).2 = none ∧
    dictGet (observe_step e times c1_datagram).1.current_dref_values name0 =
      some ⟨some c1_val0, some (times 0)⟩ ∧
    dictGet (observe_step e times c1_datagram).1.current_dref_values name1 =
      some ⟨some c1_val1, some (times 1)⟩ ∧
    times 0 ≤ times 1 ∧
    float32ToRat c1_val0 = some (25 / 2) ∧
    float32ToRat c1_val1 = some (13 / 4) := by
  have hrec : toRecords (c1_datagram.drop 5) =
      [((0 : Int), c1_val0), ((1 : Int), c1_val1)] := by decide
  have hstep : observe_step e times c1_datagram =
      processRecords times e 0 [((0 : Int), c1_val0), ((1 : Int), c1_val1)] := by
    unfold observe_step
    rw [if_pos (by decide), if_neg (by decide), hrec]
  rw [hstep]
  have hpr1 : (processRecords times e 0
        [((0 : Int), c1_val0), ((1 : Int), c1_val1)]).1.current_dref_values =
      dictSet (dictSet e.current_dref_values name0
          ⟨some c1_val0, some (times 0)⟩)
        name1 ⟨some c1_val1, some (times 1)⟩ := by
    simp only [processRecords, processRecord, h0, h1]
  have hpr2 : (processRecords times e 0
        [((0 : Int), c1_val0), ((1 : Int), c1_val1)]).2 = none := by
    simp only [processRecords, processRecord, h0, h1]
  refine ⟨hpr2, ?_, ?_, hmono 0 1 (by omega), ?_, ?_⟩
  · rw [hpr1, dictGet_dictSet_ne _ name1 name0 _ hne]
    exact dictGet_dictSet_self _ _ _
  · rw [hpr1]
    exact dictGet_dictSet_self _ _ _
  · norm_num [float32ToRat, c1_val0, leVal]
  · norm_num [float32ToRat, c1_val1, leVal]

theorem c1_witness :
    dictGet twoSubEngine.reverse_index 0 = some "a" ∧
    dictGet twoSubEngine.reverse_index 1 = some "b" ∧
    ("a" : String) ≠ "b" ∧
    (observe_step twoSubEngine (fun k => k) c1_datagram).2 = none ∧
    dictGet (observe_step twoSubEngine (fun k => k) c1_datagram).1.current_dref_values
      "a" = some ⟨some c1_val0, some 0⟩ ∧
    dictGet (observe_step twoSubEngine (fun k => k) c1_datagram).1.current_dref_values
      "b" = some ⟨some c1_val1, some 1⟩ := by
  have h := c1_scenario twoSubEngine (fun k => k) "a" "b" (by decide) (by decide)
    (by decide) (fun i j hij => hij)
  exact ⟨by decide, by decide, by decide, h.1, h.2.1, h.2.2.1⟩

/-- C4 counterexample: a reply whose record carries a mismatching slot id
makes `getDREF` raise the invalid-index error before the unsubscribe line is
reached, so no unsubscribe (frequency 0) request is sent — contradicting the
claim that an unsubscribe is sent for every outcome. -/
theorem c4_counterexample :
    (getDREF emptyEngine [120] (some c4_reply)).1.result = .invalidIndex ∧
    (getDREF emptyEngine [120] (some c4_reply)).1.unsubscribe = none := by
  decide

/-- C4 amended: `getDREF` sends the unsubscribe (frequency 0) request for
its one-shot slot id exactly when the reply record matches that slot id; on
a mismatching reply, a malformed reply, or no reply at all, the call ends
without sending it. -/
theorem c4_unsubscribe_iff (e : Engine) (dref : List Nat)
    (reply : Option (List Nat)) :
    ((getDREF e dref reply).1.unsubscribe.isSome = true) ↔
      ∃ v, (getDREF e dref reply).1.result = .success v := by
  unfold getDREF
  cases reply with
  | none => simp
  | some data =>
      cases hdec : decodeUpdateRecord (data.drop 5) with
      | none => simp [hdec]
      | some upd =>
          by_cases hs : upd.slot ≠ getDREF_idx e
          · simp [hdec, hs]
          · simp [hdec, hs]

/-- C5 counterexample: when no datagram ever reaches the temporary socket,
`getDREF` stays blocked inside `recvfrom` — no timeout is configured on the
socket — so the call does not terminate with a reported timeout error,
contradicting the claim. -/
theorem c5_counterexample :
    (getDREF emptyEngine [120] none).1.result = .blocked ∧
    (getDREF emptyEngine [120] none).1.result ≠ .timeoutError := by
  decide

/-- C5 amended: `getDREF` never reports a timeout error for any delivered
reply, and with no reply it remains blocked in `recvfrom` indefinitely. -/
theorem c5_no_timeout (e : Engine) (dref : List Nat)
    (reply : Option (List Nat)) :
    (getDREF e dref reply).1.result ≠ .timeoutError ∧
    (getDREF e dref none).1.result = .blocked := by
  constructor
  · unfold getDREF
    cases reply with
    | none => simp
    | some data =>
        cases hdec : decodeUpdateRecord (data.drop 5) with
        | none => simp [hdec]
        | some upd =>
            by_cases hs : upd.slot ≠ getDREF_idx e
            · simp [hdec, hs]
            · simp [hdec, hs]
  · rfl

/-- C10 counterexample: two engine states with identical caches but
different registries make `getDREF` send different subscribe requests (the
one-shot slot id is `len(reverse_index) + 10`), so `getDREF` does read the
registry, contradicting the claim that the one-shot operations never read
it. -/
theorem c10_counterexample :
    c10_e1.current_dref_values = c10_e2.current_dref_values ∧
    c10_e1.reverse_index ≠ c10_e2.reverse_index ∧
    (getDREF c10_e1 [120] none).1.request ≠
      (getDREF c10_e2 [120] none).1.request := by
  decide

/-- C10 amended: the registry and the cache are identical before and after
every `getDREF` and every `getPOSI` call — neither one-shot operation writes
them (`getDREF` does read the registry size to choose its slot id). -/
theorem c10_registry_cache_frame (e : Engine) (dref : List Nat)
    (reply preply : Option (List Nat)) :
    (getDREF e dref reply).2 = e ∧ (getPOSI e preply).2 = e := by
  constructor
  · unfold getDREF
    cases reply with
    | none => rfl
    | some data =>
        cases hdec : decodeUpdateRecord (data.drop 5) with
        | none => simp [hdec]
        | some upd =>
            by_cases hs : upd.slot ≠ getDREF_idx e
            · simp [hdec, hs]
            · simp [hdec, hs]
  · unfold getPOSI
    cases preply with
    | none => rfl
    | some data =>
        by_cases ht : data.take 4 = rposTag
        · cases hdec : decodeRPOSReply data with
          | none => simp [ht, hdec]
          | some r => simp [ht, hdec]
        · simp [ht]

/-- C8: for each of the six message kinds of the codec — subscribe or
unsubscribe request, subscription update record, write request, command
request, position-set request, position-query reply — decoding the encoding
of a well-formed message reproduces it exactly. -/
theorem c8_roundtrip (m1 : RREFRequest) (m2 : UpdateRecord) (m3 : DREFWrite)
    (m4 : CMNDRequest) (m5 : VEHSRequest) (m6 : RPOSReply)
    (h1 : m1.wf) (h2 : m2.wf) (h3 : m3.wf) (h4 : m4.wf) (h5 : m5.wf)
    (h6 : m6.wf) :
    decodeRREFRequest (encodeRREFRequest m1) = some m1 ∧
    decodeUpdateRecord (encodeUpdateRecord m2) = some m2 ∧
    decodeDREFWrite (encodeDREFWrite m3) = some m3 ∧
    decodeCMNDRequest (encodeCMNDRequest m4) = some m4 ∧
    decodeVEHSRequest (encodeVEHSRequest m5) = some m5 ∧
    decodeRPOSReply (encodeRPOSReply m6) = some m6 :=
  ⟨decode_encode_rref m1 h1, decode_encode_update m2 h2,
   decode_encode_dref m3 h3, decode_encode_cmnd m4 h4,
   decode_encode_vehs m5 h5, decode_encode_rpos m6 h6⟩

theorem c8_witness :
    wRREF.wf ∧ wUpd.wf ∧ wDREF.wf ∧ wCMND.wf ∧ wVEHS.wf ∧ wRPOS.wf ∧
    (decodeRREFRequest (encodeRREFRequest wRREF) = some wRREF ∧
     decodeUpdateRecord (encodeUpdateRecord wUpd) = some wUpd ∧
     decodeDREFWrite (encodeDREFWrite wDREF) = some wDREF ∧
     decodeCMNDRequest (encodeCMNDRequest wCMND) = some wCMND ∧
     decodeVEHSRequest (encodeVEHSRequest wVEHS) = some wVEHS ∧
     decodeRPOSReply (encodeRPOSReply wRPOS) = some wRPOS) :=
  ⟨by decide, by decide, by decide, by decide, by decide, by decide,
   c8_roundtrip wRREF wUpd wDREF wCMND wVEHS wRPOS (by decide) (by decide)
     (by decide) (by decide) (by decide) (by decide)⟩

end XPC
